import Mathlib

/-!
Shallow embedding of the order/inventory logic of the
simple-order-management-api repository (src/orders_api: models.py,
serializers.py, views.py).

Modelling conventions:
* Database rows are Lean structures; the database is a pair of lists
  (`DB`).  Primary keys are UUIDs (`uuid4` defaults in models.py), modelled
  by the wrapper type `Uuid` around `Nat`; freshness of a generated key is
  the only property of `uuid4` the code relies on, modelled by `freshUuid`.
* `DecimalField` money amounts are modelled as `Int` (a fixed-point
  integer amount); `PositiveIntegerField` columns are modelled as `Int`
  together with the non-negativity facts the field type provides.
* Python exceptions (`ValueError`, `ValidationError`) are modelled with
  `Except String`; `transaction.atomic` means a raising operation leaves
  the database unchanged, which the `Except` return shape encodes.
* Each definition carries a comment naming the source location it embeds.
-/

namespace OrdersApi

/-- Order.STATUS_CHOICES (models.py:117-122). -/
inductive OrderStatus
  | pending
  | shipped
  | delivered
  | cancelled
deriving DecidableEq, Repr

/-- A UUID primary key (models.py:54, models.py:124: `UUIDField(primary_key=True,
default=uuid.uuid4)`).  Wrapped in its own type because the Python value is a
`uuid.UUID` instance, which is never equal to an `int` (see `intEqPyUuid`). -/
structure Uuid where
  val : Nat
deriving DecidableEq, Repr

/-- Product row (models.py:35-94): the fields the order logic reads.
`price` is the selling price (models.py:63), `quantity` the stock on hand
(models.py:92, a PositiveIntegerField). -/
structure Product where
  pid : Uuid
  name : String
  price : Int
  quantity : Int
deriving DecidableEq, Repr

/-- Order row (models.py:101-133).  `quantity` is a PositiveIntegerField
(models.py:129); `status` defaults to pending (models.py:131). -/
structure Order where
  oid : Uuid
  productId : Uuid
  quantity : Int
  total_price : Int
  status : OrderStatus
deriving DecidableEq, Repr

/-- The relational store: the product table and the order table. -/
structure DB where
  products : List Product
  orders : List Order
deriving DecidableEq, Repr

/-- Row lookup by primary key in the product table
(`Product.objects.get(pk=...)` / FK dereference). -/
def findP : List Product → Uuid → Option Product
  | [], _ => none
  | p :: rest, pid => if p.pid = pid then some p else findP rest pid

/-- Row lookup by primary key in the order table
(`Order.objects.get(pk=self.pk)`, models.py:147). -/
def findO : List Order → Uuid → Option Order
  | [], _ => none
  | o :: rest, oid => if o.oid = oid then some o else findO rest oid

/-- SQL UPDATE of a product row (`self.product.save()`, models.py:175):
replace the row with the matching primary key. -/
def setProduct : List Product → Product → List Product
  | [], _ => []
  | q :: rest, p => if q.pid = p.pid then p :: rest else q :: setProduct rest p

/-- SQL INSERT-or-UPDATE of an order row (`super().save()`, models.py:183):
replace the row with the matching primary key, or append a new row. -/
def upsertOrders : List Order → Order → List Order
  | [], o => [o]
  | x :: rest, o => if x.oid = o.oid then o :: rest else x :: upsertOrders rest o

def findProduct (db : DB) (pid : Uuid) : Option Product :=
  findP db.products pid

def findOrder (db : DB) (oid : Uuid) : Option Order :=
  findO db.orders oid

def updateProduct (db : DB) (p : Product) : DB :=
  { db with products := setProduct db.products p }

def upsertOrder (db : DB) (o : Order) : DB :=
  { db with orders := upsertOrders db.orders o }

/-- Largest order key in use; used to model fresh `uuid4` generation. -/
def maxOidVal : List Order → Nat
  | [] => 0
  | o :: rest => max o.oid.val (maxOidVal rest)

/-- A fresh primary key for a new order (models.py:124 `default=uuid.uuid4`):
the only property the code relies on is that the new key differs from every
existing one. -/
def freshUuid (db : DB) : Uuid :=
  ⟨maxOidVal db.orders + 1⟩

/-- The ValueError message of models.py:164-167.  The source interpolates
the stock and, notably, the quantity DIFFERENCE ("Requested increase:
quantity_difference") even though the guard at models.py:163 compares the
stock with the full new quantity. -/
def insufficientStockMsg (name : String) : String :=
  "Insufficient stock for product " ++ name

/-- models.py:198. -/
def alreadyCancelledMsg : String :=
  "Order is already cancelled."

/-- views.py:404. -/
def nonPendingMsg : String :=
  "You can only update orders with a status of pending."

/-- views.py:413. -/
def productMismatchMsg : String :=
  "You can only update a product id that exists in this order."

/-- The uncaught exception of `int(request_product_id)` at views.py:410. -/
def valueErrorMsg : String :=
  "ValueError: invalid literal for int"

/-- serializers.py:294. -/
def productRequiredMsg : String :=
  "Product is required."

/-- PrimaryKeyRelatedField lookup failure (serializers.py:219-223). -/
def invalidPkMsg : String :=
  "Invalid pk"

/-- serializers.py:345-356. -/
def atLeastOneMsg : String :=
  "At least one order is required."

/-- IntegerField min_value=0 message; the serializer field derived from the
PositiveIntegerField Order.quantity (models.py:129). -/
def minValueMsg : String :=
  "Ensure this value is greater than or equal to 0."

/-- Foreign-key integrity failure: `self.product` dereference with no such
row.  Never reached in the claims; present to keep the model total. -/
def relatedProductMissingMsg : String :=
  "related product does not exist"

/-- The old quantity fetched in Order.save (models.py:144-156).  A UUID pk
with a default is already set on an unsaved instance, so the source always
tries the fetch and the DoesNotExist branch (models.py:151-153) yields 0,
which is also what a genuinely new order gets. -/
def oldQuantityOf (db : DB) (o : Order) : Int :=
  match findOrder db o.oid with
  | some old => old.quantity
  | none => 0

/-- The stock adjustment of Order.save (models.py:158-172): with
`quantity_difference = new - old`,
* increase: fail when `product.quantity < new quantity` (models.py:163 —
  the guard compares the stock with the FULL new quantity, not with the
  difference), otherwise deduct the difference;
* decrease: add back the absolute difference;
* unchanged: leave the stock alone.
Returns the new stock of the product. -/
def stockAfterSave (product : Product) (newQuantity oldQuantity : Int) : Except String Int :=
  if 0 < newQuantity - oldQuantity then
    if product.quantity < newQuantity then
      Except.error (insufficientStockMsg product.name)
    else
      Except.ok (product.quantity - (newQuantity - oldQuantity))
  else if newQuantity - oldQuantity < 0 then
    Except.ok (product.quantity + -(newQuantity - oldQuantity))
  else
    Except.ok product.quantity

/-- The body of Order.save (models.py:135-183) run with a given Product
instance bound to `self.product`: inside one transaction, fetch the old
quantity from the order table, adjust the quantity field of THAT instance
(possibly raising ValueError), write the whole instance back to its row
(`self.product.save()`, models.py:175 — overwriting whatever value the row
holds at that moment), set `total_price = quantity * product.price` from
the instance (models.py:178-180) and persist the order.  An error return
means the transaction rolled back and the database is unchanged.  Which
object is bound to `self.product` depends on the caller: a fresh row read
for update/destroy, a validation-time instance in the bulk create loop. -/
def orderSaveInstance (db : DB) (o : Order) (productInstance : Product) : Except String DB :=
  match stockAfterSave productInstance o.quantity (oldQuantityOf db o) with
  | Except.error e => Except.error e
  | Except.ok newStock =>
    Except.ok (upsertOrder
      (updateProduct db { productInstance with quantity := newStock })
      { o with total_price := o.quantity * productInstance.price })

/-- Order.save as run by the update and destroy endpoints: the order was
just fetched there, so the `self.product` descriptor lazily loads the
product fresh from its current row. -/
def orderSave (db : DB) (o : Order) : Except String DB :=
  match findProduct db o.productId with
  | none => Except.error relatedProductMissingMsg
  | some product => orderSaveInstance db o product

/-- Order.cancel_order (models.py:193-207): refuse when already cancelled,
otherwise restore the full order quantity to the product stock, mark the
order cancelled and persist via `super().save()` — which, unlike
`Order.save`, does not recompute total_price. -/
def cancelOrder (db : DB) (oid : Uuid) : Except String DB :=
  match findOrder db oid with
  | none => Except.error "Order matching query does not exist."
  | some o =>
    if o.status = OrderStatus.cancelled then
      Except.error alreadyCancelledMsg
    else
      match findProduct db o.productId with
      | none => Except.error relatedProductMissingMsg
      | some product =>
        Except.ok (upsertOrder
          (updateProduct db { product with quantity := product.quantity + o.quantity })
          { o with status := OrderStatus.cancelled })

/-- OrderSerializer.validate (serializers.py:284-305): require a product and
reject a quantity exceeding the available stock. -/
def orderSerializerValidate (productOpt : Option Product) (quantity : Int) : Except String Unit :=
  match productOpt with
  | none => Except.error productRequiredMsg
  | some product =>
    if quantity > product.quantity then
      Except.error (insufficientStockMsg product.name)
    else
      Except.ok ()

/-- One item of a bulk order request (spec section 6: a list of
`(product_id, quantity)`; serializers.py:334-357). -/
structure OrderItem where
  product_id : Uuid
  quantity : Int
deriving DecidableEq, Repr

/-- Serializer processing of one submitted item (`serializer.is_valid`):
the IntegerField derived from the PositiveIntegerField rejects negatives,
the PrimaryKeyRelatedField (serializers.py:219-223) fetches a fresh
Product INSTANCE for the submitted pk, then OrderSerializer.validate
checks the requested quantity against that instance.  On success the
validated data holds the resolved instance itself — a per-item snapshot of
the row as it stood when the request was validated. -/
def resolveItem (db : DB) (it : OrderItem) : Except String (Product × Int) :=
  if it.quantity < 0 then
    Except.error minValueMsg
  else
    match findProduct db it.product_id with
    | none => Except.error invalidPkMsg
    | some product =>
      match orderSerializerValidate (some product) it.quantity with
      | Except.error e => Except.error e
      | Except.ok _ => Except.ok (product, it.quantity)

/-- `serializer.is_valid` over the whole submitted list: every item is
resolved against the SAME pre-request database state (stock deducted by
earlier items of the same request is not seen), and each item gets its own
Product instance even when two items name the same product.  Any failure
rejects the whole request before anything is written. -/
def resolveAll (db : DB) (items : List OrderItem) : Except String (List (Product × Int)) :=
  match items with
  | [] => Except.ok []
  | it :: rest =>
    match resolveItem db it with
    | Except.error e => Except.error e
    | Except.ok pq =>
      match resolveAll db rest with
      | Except.error e => Except.error e
      | Except.ok rest2 => Except.ok (pq :: rest2)

def newOrderFor (db : DB) (pid : Uuid) (q : Int) : Order :=
  { oid := freshUuid db
    productId := pid
    quantity := q
    total_price := 0
    status := OrderStatus.pending }

/-- BulkOrderSerializer.create (serializers.py:359-372): create the orders
one by one with `Order.objects.create(**order_data)`, i.e. one
`Order.save` per item, each individually transactional, with NO
transaction around the loop.  Crucially, each save runs with
`self.product` bound to the VALIDATION-TIME instance of the item, not a fresh
read of the row: the stock guard compares against that possibly stale
snapshot, and each `product.save()` writes the whole snapshot back,
overwriting the deduction of any earlier item on the same product (last
writer wins).  If a save did raise, the loop would stop with the orders
already created still persisted, so the error carries the partial
database state. -/
def createLoop : DB → List (Product × Int) → Except (String × DB) DB
  | db, [] => Except.ok db
  | db, (productInstance, q) :: rest =>
    match orderSaveInstance db (newOrderFor db productInstance.pid q) productInstance with
    | Except.error e => Except.error (e, db)
    | Except.ok db2 => createLoop db2 rest

/-- Outcome of the bulk-create endpoint.  Each constructor carries the
database state after the request: unchanged for a 400, partially mutated
for an uncaught exception escaping the create loop. -/
inductive BulkResult
  | created (db : DB)
  | rejected400 (db : DB) (msg : String)
  | raised (db : DB) (msg : String)
deriving DecidableEq, Repr

/-- OrderViewSet.create (views.py:328-355) + BulkOrderSerializer: a missing
or empty list is a 400 (serializers.py:345-356), a validation failure is a
400 with nothing written, otherwise the create loop runs over the
resolved validation-time instances. -/
def viewBulkCreate (db : DB) (items : List OrderItem) : BulkResult :=
  if items.isEmpty then
    BulkResult.rejected400 db atLeastOneMsg
  else
    match resolveAll db items with
    | Except.error e => BulkResult.rejected400 db e
    | Except.ok resolved =>
      match createLoop db resolved with
      | Except.error (e, dbAfter) => BulkResult.raised dbAfter e
      | Except.ok db2 => BulkResult.created db2

/-- Outcome of a single-order endpoint.  Each constructor carries the
database state after the request. -/
inductive HttpResult
  | ok200 (db : DB)
  | err400 (db : DB) (msg : String)
  | err404 (db : DB)
  | raised (db : DB) (msg : String)
deriving DecidableEq, Repr

/-- The database state a result carries. -/
def resultDb : HttpResult → DB
  | HttpResult.ok200 db => db
  | HttpResult.err400 db _ => db
  | HttpResult.err404 db => db
  | HttpResult.raised db _ => db

/-- The database state a bulk-create result carries. -/
def bulkResultDb : BulkResult → DB
  | BulkResult.created db => db
  | BulkResult.rejected400 db _ => db
  | BulkResult.raised db _ => db

/-- OrderViewSet.destroy (views.py:367-378): fetch the order, set
`status = "cancelled"` and call `order.save()` — i.e. `Order.save`, NOT
`Order.cancel_order`.  The quantity is unchanged, so the save runs with a
zero quantity difference. -/
def viewDestroy (db : DB) (oid : Uuid) : HttpResult :=
  match findOrder db oid with
  | none => HttpResult.err404 db
  | some o =>
    match orderSave db { o with status := OrderStatus.cancelled } with
    | Except.error e => HttpResult.raised db e
    | Except.ok db2 => HttpResult.ok200 db2

/-- The value a request body supplies for `product_id`
(`request.data.get("product_id")`, views.py:409): absent (or null), a JSON
string, or a JSON number. -/
inductive ReqPid
  | absent
  | pstr (s : String)
  | pint (n : Int)
deriving DecidableEq, Repr

/-- Python truthiness of that value (`if request_product_id and ...`,
views.py:410): None, the empty string and 0 are falsy. -/
def reqPidTruthy : ReqPid → Bool
  | ReqPid.absent => false
  | ReqPid.pstr s => !(s = "")
  | ReqPid.pint n => !(n = 0)

def digitsVal : List Char → Nat → Option Nat
  | [], acc => some acc
  | c :: rest, acc =>
    if c.isDigit then digitsVal rest (acc * 10 + (c.toNat - 48)) else none

/-- Python `int(s)` on a string (views.py:410): an optional sign followed
by at least one digit parses, anything else raises ValueError (`none`).
In particular every canonical UUID string fails to parse. -/
def pyIntParse (s : String) : Option Int :=
  match s.data with
  | [] => none
  | c :: rest =>
    if c = '-' then
      match rest with
      | [] => none
      | _ => (digitsVal rest 0).map (fun n => -(n : Int))
    else if c = '+' then
      match rest with
      | [] => none
      | _ => (digitsVal rest 0).map (fun n => (n : Int))
    else
      (digitsVal (c :: rest) 0).map (fun n => (n : Int))

/-- Python `int(...) == order.product.id` (views.py:410): the right-hand
side is a `uuid.UUID` instance, whose `__eq__` returns False for anything
that is not a UUID, so the comparison is False for every int. -/
def intEqPyUuid (_n : Int) (_u : Uuid) : Bool :=
  false

/-- Outcome of the product_id guard at views.py:408-416. -/
inductive GuardOutcome
  | passed
  | rejected
  | valueError
deriving DecidableEq, Repr

/-- The guard at views.py:408-416: skipped when the supplied value is
falsy; otherwise `int(value)` is compared with the order product UUID —
a non-numeric string raises an uncaught ValueError, and any int differs
from the UUID, giving the 400. -/
def productIdGuard (rp : ReqPid) (productUuid : Uuid) : GuardOutcome :=
  if reqPidTruthy rp then
    match rp with
    | ReqPid.absent => GuardOutcome.passed
    | ReqPid.pstr s =>
      match pyIntParse s with
      | none => GuardOutcome.valueError
      | some n =>
        if intEqPyUuid n productUuid then GuardOutcome.passed else GuardOutcome.rejected
    | ReqPid.pint n =>
      if intEqPyUuid n productUuid then GuardOutcome.passed else GuardOutcome.rejected
  else
    GuardOutcome.passed

/-- An update request body: the optional product_id value and the optional
new quantity (PATCH keeps the stored quantity when absent). -/
structure UpdateReq where
  product_id : ReqPid
  quantity : Option Int
deriving DecidableEq, Repr

/-- OrderViewSet.update (views.py:394-434): 404 when the order is not
found; 400 when the status is not pending (views.py:402-406); then the
product_id guard (views.py:408-416); then the serializer — a supplied but
falsy product_id fails the PrimaryKeyRelatedField lookup (no product has
an int or empty primary key, the keys being UUIDs), the quantity field
rejects negatives, and OrderSerializer.validate (serializers.py:284-305)
reads the product from its attrs.  Attrs never hold a product here: a PUT
without product_id dies on the required field, and a PATCH without it has
no product key in attrs (the serializer does not inject instance fields),
so validate receives none and raises its required-product error; the
final `Order.save` branch is therefore dead code on this endpoint, every
update request being 400-rejected before it. -/
def viewUpdate (db : DB) (oid : Uuid) (req : UpdateReq) : HttpResult :=
  match findOrder db oid with
  | none => HttpResult.err404 db
  | some order =>
    if order.status ≠ OrderStatus.pending then
      HttpResult.err400 db nonPendingMsg
    else
      match productIdGuard req.product_id order.productId with
      | GuardOutcome.valueError => HttpResult.raised db valueErrorMsg
      | GuardOutcome.rejected => HttpResult.err400 db productMismatchMsg
      | GuardOutcome.passed =>
        if req.product_id ≠ ReqPid.absent then
          HttpResult.err400 db invalidPkMsg
        else
          if req.quantity.getD order.quantity < 0 then
            HttpResult.err400 db minValueMsg
          else
            match orderSerializerValidate none (req.quantity.getD order.quantity) with
            | Except.error e => HttpResult.err400 db e
            | Except.ok _ =>
              match orderSave db { order with quantity := req.quantity.getD order.quantity } with
              | Except.error e => HttpResult.raised db e
              | Except.ok db2 => HttpResult.ok200 db2

/-- The order operations reachable through the system: bulk (or single)
creation, update, the destroy (soft-delete) endpoint, and the model-level
cancel_order.  (The product_id guard only narrows what `update` can do, so
the `update` op here, which omits nothing else, covers every request.) -/
inductive Op
  | bulkCreate (items : List OrderItem)
  | update (oid : Uuid) (req : UpdateReq)
  | destroy (oid : Uuid)
  | cancel (oid : Uuid)

/-- The database state after one operation, whatever the HTTP outcome. -/
def applyOp (db : DB) (op : Op) : DB :=
  match op with
  | Op.bulkCreate items => bulkResultDb (viewBulkCreate db items)
  | Op.update oid req => resultDb (viewUpdate db oid req)
  | Op.destroy oid => resultDb (viewDestroy db oid)
  | Op.cancel oid =>
    match cancelOrder db oid with
    | Except.ok db2 => db2
    | Except.error _ => db

/-- Run a sequence of operations. -/
def run (db : DB) : List Op → DB
  | [] => db
  | op :: ops => run (applyOp db op) ops

/-- Every product stock is non-negative (spec: stock must never go
negative; models.py:92 PositiveIntegerField). -/
abbrev stocksNonneg (db : DB) : Prop :=
  ∀ p ∈ db.products, 0 ≤ p.quantity

/-- Every order quantity is non-negative (models.py:129
PositiveIntegerField). -/
abbrev quantitiesNonneg (db : DB) : Prop :=
  ∀ o ∈ db.orders, 0 ≤ o.quantity

/-- Well-formedness of a database state: both PositiveIntegerField columns
hold non-negative values. -/
abbrev dbInv (db : DB) : Prop :=
  stocksNonneg db ∧ quantitiesNonneg db

/-- The database state the bulk create loop leaves behind, whether the
loop finishes or an exception escapes it mid-way. -/
def bulkLoopDb (db : DB) (resolved : List (Product × Int)) : DB :=
  match createLoop db resolved with
  | Except.ok d => d
  | Except.error (_, d) => d

/-! ### Lookup and update lemmas -/

theorem findP_some_mem {l : List Product} {pid : Uuid} {p : Product}
    (h : findP l pid = some p) : p ∈ l := by
  induction l with
  | nil => simp [findP] at h
  | cons q rest ih =>
    simp only [findP] at h
    split at h
    · cases h
      exact List.mem_cons_self _ _
    · exact List.mem_cons_of_mem _ (ih h)

theorem findO_some_mem {l : List Order} {oid : Uuid} {o : Order}
    (h : findO l oid = some o) : o ∈ l := by
  induction l with
  | nil => simp [findO] at h
  | cons q rest ih =>
    simp only [findO] at h
    split at h
    · cases h
      exact List.mem_cons_self _ _
    · exact List.mem_cons_of_mem _ (ih h)

theorem findO_some_oid {l : List Order} {oid : Uuid} {o : Order}
    (h : findO l oid = some o) : o.oid = oid := by
  induction l with
  | nil => simp [findO] at h
  | cons q rest ih =>
    simp only [findO] at h
    split at h
    · rename_i hq
      cases h
      exact hq
    · exact ih h

theorem mem_setProduct {l : List Product} {p x : Product}
    (h : x ∈ setProduct l p) : x = p ∨ x ∈ l := by
  induction l with
  | nil => simp [setProduct] at h
  | cons q rest ih =>
    simp only [setProduct] at h
    split at h
    · rcases List.mem_cons.mp h with h1 | h1
      · exact Or.inl h1
      · exact Or.inr (List.mem_cons_of_mem _ h1)
    · rcases List.mem_cons.mp h with h1 | h1
      · exact Or.inr (h1 ▸ List.mem_cons_self _ _)
      · rcases ih h1 with h2 | h2
        · exact Or.inl h2
        · exact Or.inr (List.mem_cons_of_mem _ h2)

theorem mem_upsertOrders {l : List Order} {o x : Order}
    (h : x ∈ upsertOrders l o) : x = o ∨ x ∈ l := by
  induction l with
  | nil =>
    simp only [upsertOrders, List.mem_singleton] at h
    exact Or.inl h
  | cons q rest ih =>
    simp only [upsertOrders] at h
    split at h
    · rcases List.mem_cons.mp h with h1 | h1
      · exact Or.inl h1
      · exact Or.inr (List.mem_cons_of_mem _ h1)
    · rcases List.mem_cons.mp h with h1 | h1
      · exact Or.inr (h1 ▸ List.mem_cons_self _ _)
      · rcases ih h1 with h2 | h2
        · exact Or.inl h2
        · exact Or.inr (List.mem_cons_of_mem _ h2)

theorem findO_upsert_self (l : List Order) (o : Order) :
    findO (upsertOrders l o) o.oid = some o := by
  induction l with
  | nil => simp [upsertOrders, findO]
  | cons x rest ih =>
    simp only [upsertOrders]
    split
    · simp [findO]
    · rename_i hx
      simp only [findO]
      rw [if_neg hx]
      exact ih

theorem findP_setProduct_self {l : List Product} {p0 p : Product}
    (h : findP l p.pid = some p0) : findP (setProduct l p) p.pid = some p := by
  induction l with
  | nil => simp [findP] at h
  | cons q rest ih =>
    simp only [setProduct]
    split
    · simp [findP]
    · rename_i hq
      simp only [findP] at h ⊢
      rw [if_neg hq] at h ⊢
      exact ih h

theorem mem_maxOidVal {l : List Order} {o : Order} (h : o ∈ l) :
    o.oid.val ≤ maxOidVal l := by
  induction l with
  | nil => cases h
  | cons x rest ih =>
    simp only [maxOidVal]
    rcases List.mem_cons.mp h with h1 | h1
    · rw [h1]
      exact le_max_left _ _
    · exact le_trans (ih h1) (le_max_right _ _)

theorem findO_fresh (db : DB) : findO db.orders (freshUuid db) = none := by
  cases hf : findO db.orders (freshUuid db) with
  | none => rfl
  | some o =>
    have h1 := findO_some_oid hf
    have h2 := mem_maxOidVal (findO_some_mem hf)
    rw [h1] at h2
    simp only [freshUuid] at h2
    omega

/-! ### Invariant preservation -/

theorem oldQuantityOf_nonneg {db : DB} (hq : quantitiesNonneg db) (o : Order) :
    0 ≤ oldQuantityOf db o := by
  unfold oldQuantityOf
  cases hf : findOrder db o.oid with
  | none => exact le_refl 0
  | some old => exact hq old (findO_some_mem hf)

theorem stockAfterSave_nonneg {product : Product} {newQ oldQ s : Int}
    (hp : 0 ≤ product.quantity) (ho : 0 ≤ oldQ)
    (h : stockAfterSave product newQ oldQ = Except.ok s) : 0 ≤ s := by
  unfold stockAfterSave at h
  split at h
  · split at h
    · cases h
    · cases h
      omega
  · split at h
    · cases h
      omega
    · cases h
      omega

theorem orderSaveInstance_inv {db db2 : DB} {o : Order} {inst : Product}
    (hinv : dbInv db) (hq : 0 ≤ o.quantity) (hinst : 0 ≤ inst.quantity)
    (h : orderSaveInstance db o inst = Except.ok db2) : dbInv db2 := by
  unfold orderSaveInstance at h
  cases hs : stockAfterSave inst o.quantity (oldQuantityOf db o) with
  | error e =>
    simp only [hs] at h
    cases h
  | ok newStock =>
    simp only [hs, Except.ok.injEq] at h
    subst h
    have hnn : 0 ≤ newStock :=
      stockAfterSave_nonneg hinst (oldQuantityOf_nonneg hinv.2 o) hs
    constructor
    · intro x hx
      simp only [upsertOrder, updateProduct] at hx
      rcases mem_setProduct hx with h1 | h1
      · rw [h1]
        exact hnn
      · exact hinv.1 x h1
    · intro x hx
      simp only [upsertOrder, updateProduct] at hx
      rcases mem_upsertOrders hx with h1 | h1
      · rw [h1]
        exact hq
      · exact hinv.2 x h1

theorem orderSave_inv {db db2 : DB} {o : Order}
    (hinv : dbInv db) (hq : 0 ≤ o.quantity)
    (h : orderSave db o = Except.ok db2) : dbInv db2 := by
  unfold orderSave at h
  cases hfp : findProduct db o.productId with
  | none =>
    simp only [hfp] at h
    cases h
  | some product =>
    simp only [hfp] at h
    exact orderSaveInstance_inv hinv hq (hinv.1 product (findP_some_mem hfp)) h

theorem cancelOrder_inv {db db2 : DB} {oid : Uuid}
    (hinv : dbInv db) (h : cancelOrder db oid = Except.ok db2) : dbInv db2 := by
  unfold cancelOrder at h
  cases hf : findOrder db oid with
  | none =>
    simp only [hf] at h
    cases h
  | some o =>
    simp only [hf] at h
    split at h
    · cases h
    · cases hfp : findProduct db o.productId with
      | none =>
        simp only [hfp] at h
        cases h
      | some product =>
        simp only [hfp, Except.ok.injEq] at h
        subst h
        have hq0 : 0 ≤ o.quantity := hinv.2 o (findO_some_mem hf)
        have hp0 : 0 ≤ product.quantity := hinv.1 product (findP_some_mem hfp)
        constructor
        · intro x hx
          simp only [upsertOrder, updateProduct] at hx
          rcases mem_setProduct hx with h1 | h1
          · rw [h1]
            simp only
            omega
          · exact hinv.1 x h1
        · intro x hx
          simp only [upsertOrder, updateProduct] at hx
          rcases mem_upsertOrders hx with h1 | h1
          · rw [h1]
            exact hq0
          · exact hinv.2 x h1

theorem resolveAll_spec {db : DB} :
    ∀ {items : List OrderItem} {resolved : List (Product × Int)},
      resolveAll db items = Except.ok resolved →
      ∀ pq ∈ resolved, 0 ≤ pq.2 ∧ pq.2 ≤ pq.1.quantity ∧ pq.1 ∈ db.products := by
  intro items
  induction items with
  | nil =>
    intro resolved h pq hpq
    simp only [resolveAll, Except.ok.injEq] at h
    subst h
    cases hpq
  | cons x rest ih =>
    intro resolved h pq hpq
    simp only [resolveAll] at h
    cases hi : resolveItem db x with
    | error e =>
      simp only [hi] at h
      cases h
    | ok pq0 =>
      simp only [hi] at h
      cases hr : resolveAll db rest with
      | error e =>
        simp only [hr] at h
        cases h
      | ok rest2 =>
        simp only [hr, Except.ok.injEq] at h
        subst h
        rcases List.mem_cons.mp hpq with h1 | h1
        · subst h1
          unfold resolveItem at hi
          split at hi
          · cases hi
          · rename_i hq0
            cases hfp : findProduct db x.product_id with
            | none =>
              simp only [hfp] at hi
              cases hi
            | some product =>
              simp only [hfp] at hi
              cases hv : orderSerializerValidate (some product) x.quantity with
              | error e =>
                simp only [hv] at hi
                cases hi
              | ok u =>
                simp only [hv, Except.ok.injEq] at hi
                subst hi
                have hle : ¬ x.quantity > product.quantity := by
                  intro hgt
                  unfold orderSerializerValidate at hv
                  dsimp only at hv
                  rw [if_pos hgt] at hv
                  cases hv
                refine ⟨?_, ?_, ?_⟩
                · dsimp only
                  omega
                · dsimp only
                  omega
                · exact findP_some_mem hfp
        · exact ih hr pq h1

theorem createLoop_inv {resolved : List (Product × Int)} :
    ∀ {db : DB}, dbInv db →
      (∀ pq ∈ resolved, 0 ≤ pq.2 ∧ 0 ≤ pq.1.quantity) →
      dbInv (bulkLoopDb db resolved) := by
  induction resolved with
  | nil =>
    intro db h _
    simpa [bulkLoopDb, createLoop] using h
  | cons x rest ih =>
    intro db h hq
    obtain ⟨inst, q⟩ := x
    unfold bulkLoopDb createLoop
    cases hs : orderSaveInstance db (newOrderFor db inst.pid q) inst with
    | error e => exact h
    | ok db2 =>
      have hx := hq (inst, q) (List.mem_cons_self _ _)
      have h2 : dbInv db2 := orderSaveInstance_inv h hx.1 hx.2 hs
      have h3 := ih h2 (fun pq hpq => hq pq (List.mem_cons_of_mem _ hpq))
      simpa [bulkLoopDb] using h3

theorem viewDestroy_inv {db : DB} (h : dbInv db) (oid : Uuid) :
    dbInv (resultDb (viewDestroy db oid)) := by
  unfold viewDestroy
  cases hf : findOrder db oid with
  | none => exact h
  | some o =>
    dsimp only
    cases hs : orderSave db { o with status := OrderStatus.cancelled } with
    | error e => exact h
    | ok db2 =>
      simp only [resultDb]
      refine orderSave_inv h ?_ hs
      exact h.2 o (findO_some_mem hf)

theorem viewUpdate_inv {db : DB} (h : dbInv db) (oid : Uuid) (req : UpdateReq) :
    dbInv (resultDb (viewUpdate db oid req)) := by
  unfold viewUpdate
  cases hf : findOrder db oid with
  | none => exact h
  | some order =>
    dsimp only
    split
    · exact h
    · split
      · exact h
      · exact h
      · split
        · exact h
        · split
          · exact h
          · rename_i hng
            cases hv : orderSerializerValidate none
                (req.quantity.getD order.quantity) with
            | error e => exact h
            | ok u =>
              dsimp only
              cases hs : orderSave db { order with quantity := req.quantity.getD order.quantity } with
              | error e => exact h
              | ok db2 =>
                simp only [resultDb]
                refine orderSave_inv h ?_ hs
                simp only
                omega

theorem viewBulkCreate_inv {db : DB} (h : dbInv db) (items : List OrderItem) :
    dbInv (bulkResultDb (viewBulkCreate db items)) := by
  unfold viewBulkCreate
  split
  · exact h
  · cases hv : resolveAll db items with
    | error e => exact h
    | ok resolved =>
      dsimp only
      have hspec := resolveAll_spec hv
      have h2 := createLoop_inv h
        (fun pq hpq => ⟨(hspec pq hpq).1, h.1 pq.1 (hspec pq hpq).2.2⟩)
      cases hc : createLoop db resolved with
      | ok d =>
        simpa [bulkLoopDb, hc] using h2
      | error p =>
        cases p with
        | mk e d =>
          simpa [bulkLoopDb, hc] using h2

theorem applyOp_inv {db : DB} (h : dbInv db) (op : Op) : dbInv (applyOp db op) := by
  cases op with
  | bulkCreate items =>
    exact viewBulkCreate_inv h items
  | update oid req =>
    exact viewUpdate_inv h oid req
  | destroy oid =>
    exact viewDestroy_inv h oid
  | cancel oid =>
    unfold applyOp
    dsimp only
    cases hc : cancelOrder db oid with
    | error e => exact h
    | ok db2 => exact cancelOrder_inv h hc

theorem run_inv {ops : List Op} :
    ∀ {db : DB}, dbInv db → dbInv (run db ops) := by
  induction ops with
  | nil =>
    intro db h
    exact h
  | cons op rest ih =>
    intro db h
    exact ih (applyOp_inv h op)

/-! ### The creation path, computed -/

theorem findP_some_pid {l : List Product} {pid : Uuid} {p : Product}
    (h : findP l pid = some p) : p.pid = pid := by
  induction l with
  | nil => simp [findP] at h
  | cons q rest ih =>
    simp only [findP] at h
    split at h
    · rename_i hq
      cases h
      exact hq
    · exact ih h

theorem oldQuantityOf_new (db : DB) (pid : Uuid) (q : Int) :
    oldQuantityOf db (newOrderFor db pid q) = 0 := by
  unfold oldQuantityOf findOrder newOrderFor
  rw [findO_fresh]

theorem stockAfterSave_create {p : Product} {q : Int}
    (h0 : 0 ≤ q) (hle : q ≤ p.quantity) :
    stockAfterSave p q 0 = Except.ok (p.quantity - q) := by
  unfold stockAfterSave
  rcases lt_or_eq_of_le h0 with hq | hq
  · rw [if_pos (by omega), if_neg (by omega)]
    norm_num
  · rw [if_neg (by omega), if_neg (by omega)]
    rw [← hq]
    norm_num

theorem orderSaveInstance_create {db : DB} {p : Product} {q : Int}
    (h0 : 0 ≤ q) (hle : q ≤ p.quantity) :
    orderSaveInstance db (newOrderFor db p.pid q) p
      = Except.ok (upsertOrder
          (updateProduct db { p with quantity := p.quantity - q })
          { newOrderFor db p.pid q with total_price := q * p.price }) := by
  unfold orderSaveInstance
  simp only [oldQuantityOf_new]
  simp only [newOrderFor]
  rw [stockAfterSave_create h0 hle]

theorem resolveItem_eval {db : DB} {pid : Uuid} {p : Product} {q : Int}
    (hfind : findProduct db pid = some p) (h0 : 0 ≤ q) :
    resolveItem db ⟨pid, q⟩
      = if q > p.quantity then Except.error (insufficientStockMsg p.name)
        else Except.ok (p, q) := by
  unfold resolveItem
  dsimp only
  rw [if_neg (by omega)]
  simp only [hfind]
  unfold orderSerializerValidate
  dsimp only
  by_cases hc : q > p.quantity
  · simp only [if_pos hc]
  · simp only [if_neg hc]

theorem resolveAll_single {db : DB} {pid : Uuid} {p : Product} {q : Int}
    (hfind : findProduct db pid = some p) (h0 : 0 ≤ q) :
    resolveAll db [⟨pid, q⟩]
      = if q > p.quantity then Except.error (insufficientStockMsg p.name)
        else Except.ok [(p, q)] := by
  unfold resolveAll
  rw [resolveItem_eval hfind h0]
  by_cases hc : q > p.quantity
  · simp only [if_pos hc]
  · simp only [if_neg hc]
    rfl

theorem createLoop_no_raise {resolved : List (Product × Int)} :
    ∀ {db : DB}, (∀ pq ∈ resolved, 0 ≤ pq.2 ∧ pq.2 ≤ pq.1.quantity) →
      ∃ db2, createLoop db resolved = Except.ok db2 := by
  induction resolved with
  | nil =>
    intro db _
    exact ⟨db, rfl⟩
  | cons x rest ih =>
    intro db hq
    obtain ⟨inst, q⟩ := x
    have hx := hq (inst, q) (List.mem_cons_self _ _)
    unfold createLoop
    rw [orderSaveInstance_create hx.1 hx.2]
    exact ih (fun pq hpq => hq pq (List.mem_cons_of_mem _ hpq))

/-! ### Concrete states used in evaluations and witnesses -/

/-- A product with the given stock (price 10, key 1). -/
def widget (stock : Int) : Product :=
  { pid := ⟨1⟩, name := "widget", price := 10, quantity := stock }

/-- A pending order of 8 widgets, stored while the widget stock is 2
(so 10 units were in stock before this order was placed). -/
def dbLowStock : DB :=
  { products := [widget 2]
    orders := [{ oid := ⟨7⟩, productId := ⟨1⟩, quantity := 8, total_price := 80,
                 status := OrderStatus.pending }] }

/-- A pending order of 3 widgets, stored while the widget stock is 5. -/
def dbPendingOrder : DB :=
  { products := [widget 5]
    orders := [{ oid := ⟨7⟩, productId := ⟨1⟩, quantity := 3, total_price := 30,
                 status := OrderStatus.pending }] }

/-- A cancelled order of 3 widgets, widget stock 5. -/
def dbCancelledOrder : DB :=
  { products := [widget 5]
    orders := [{ oid := ⟨7⟩, productId := ⟨1⟩, quantity := 3, total_price := 30,
                 status := OrderStatus.cancelled }] }

/-- Widget stock 5 and no orders yet. -/
def dbFreshStock : DB :=
  { products := [widget 5], orders := [] }

/-! ### The claims -/

/-- C1: the claim says Order.save, on a pending-order quantity update,
fails exactly when the increase (the delta new - old) exceeds the
remaining stock.  The code (models.py:163) instead compares the stock with
the FULL new quantity: here the stored quantity is 8, the new quantity 9,
the delta 1 and the stock 2, so the delta fits in stock and the claim says
the save succeeds — but `orderSave` raises the insufficient-stock
ValueError. -/
theorem c1_save_rejects_fitting_delta :
    orderSave dbLowStock
        { oid := ⟨7⟩, productId := ⟨1⟩, quantity := 9, total_price := 80,
          status := OrderStatus.pending }
      = Except.error (insufficientStockMsg "widget")
    ∧ ((9 : Int) - 8 ≤ (widget 2).quantity) := by
  constructor
  · rfl
  · decide

/-- C2: the claim says the cancel operation exposed by the API restores
the product stock by the order quantity.  The destroy endpoint
(views.py:367-378) only sets status = cancelled and calls `Order.save`
(quantity delta 0), so the stock stays 5 instead of becoming 8 — while the
model method `Order.cancel_order`, which no view calls, does restore the
stock to 8. -/
theorem c2_destroy_leaves_stock :
    viewDestroy dbPendingOrder ⟨7⟩
      = HttpResult.ok200
          { products := [widget 5]
            orders := [{ oid := ⟨7⟩, productId := ⟨1⟩, quantity := 3, total_price := 30,
                         status := OrderStatus.cancelled }] }
    ∧ cancelOrder dbPendingOrder ⟨7⟩
      = Except.ok
          { products := [widget 8]
            orders := [{ oid := ⟨7⟩, productId := ⟨1⟩, quantity := 3, total_price := 30,
                         status := OrderStatus.cancelled }] } := by
  constructor
  · rfl
  · rfl

/-- C3: starting from any well-formed database state (both
PositiveIntegerField columns non-negative, in particular every product
stock ≥ 0), every product stock stays non-negative after any sequence of
order operations. -/
theorem c3_stock_never_negative (db0 : DB) (h : dbInv db0) (ops : List Op) :
    stocksNonneg (run db0 ops) :=
  (run_inv h).1

/-- Witness for C3 at a concrete state and operation sequence. -/
theorem c3_stock_never_negative_witness :
    stocksNonneg (run dbFreshStock
      [Op.bulkCreate [⟨⟨1⟩, 3⟩],
       Op.update ⟨1⟩ { product_id := ReqPid.absent, quantity := some 5 },
       Op.destroy ⟨1⟩,
       Op.cancel ⟨1⟩]) :=
  c3_stock_never_negative dbFreshStock ⟨by decide, by decide⟩
    [Op.bulkCreate [⟨⟨1⟩, 3⟩],
     Op.update ⟨1⟩ { product_id := ReqPid.absent, quantity := some 5 },
     Op.destroy ⟨1⟩,
     Op.cancel ⟨1⟩]

/-- C4: every bulk request either creates all its orders or is rejected
with a 400 that carries the database unchanged — if creating any item
fails, no order is persisted and no stock is changed.  Failures happen
only during `serializer.is_valid`, which writes nothing; once validation
has passed, no save in the create loop can fail, because each save checks
the SAME validation-time instance the validation itself checked (the
stock guard of the loop is dead code after validation).  Note this does not
make the bulk path atomic in the wider sense the spec intends: a
multi-item request on one product SUCCEEDS while each `product.save()`
overwrites the previous deduction (see `viewBulkCreate_lost_update`) —
but in that scenario no item fails, so it is outside this claim. -/
theorem c4_bulk_all_or_nothing (db : DB) (items : List OrderItem) :
    (∃ db2, viewBulkCreate db items = BulkResult.created db2)
    ∨ (∃ m, viewBulkCreate db items = BulkResult.rejected400 db m) := by
  unfold viewBulkCreate
  split
  · exact Or.inr ⟨_, rfl⟩
  · cases hv : resolveAll db items with
    | error e => exact Or.inr ⟨_, rfl⟩
    | ok resolved =>
      dsimp only
      have hspec := resolveAll_spec hv
      obtain ⟨db2, hc⟩ := createLoop_no_raise
        (fun pq hpq => ⟨(hspec pq hpq).1, (hspec pq hpq).2.1⟩)
      rw [hc]
      exact Or.inl ⟨db2, rfl⟩

/-- Sanity anchor for the bulk loop semantics: with widget stock 5 the
request [(widget, 3), (widget, 4)] validates (each item against the
untouched stock) and then BOTH orders persist — the second save reads its
validation-time instance (stock 5), its guard passes, and its
product.save() writes 5 - 4 = 1, silently overwriting the stock 2 the
first item had written.  Nothing raises; the request succeeds with the
stock corrupted by the lost update. -/
theorem viewBulkCreate_lost_update :
    viewBulkCreate dbFreshStock [⟨⟨1⟩, 3⟩, ⟨⟨1⟩, 4⟩]
      = BulkResult.created
          { products := [widget 1]
            orders := [{ oid := ⟨1⟩, productId := ⟨1⟩, quantity := 3, total_price := 30,
                         status := OrderStatus.pending },
                       { oid := ⟨2⟩, productId := ⟨1⟩, quantity := 4, total_price := 40,
                         status := OrderStatus.pending }] } := by
  rfl

/-- C5: Order.cancel_order on an order already in status cancelled raises
the already-cancelled ValueError (models.py:197-198) and, the raise coming
before any mutation inside the transaction, leaves the database — the
order and the product stock — unchanged. -/
theorem c5_double_cancel_rejected (db : DB) (oid : Uuid) (o : Order)
    (h1 : findOrder db oid = some o) (h2 : o.status = OrderStatus.cancelled) :
    cancelOrder db oid = Except.error alreadyCancelledMsg
    ∧ applyOp db (Op.cancel oid) = db := by
  have hc : cancelOrder db oid = Except.error alreadyCancelledMsg := by
    unfold cancelOrder
    simp [h1, h2]
  refine ⟨hc, ?_⟩
  unfold applyOp
  simp [hc]

/-- Witness for C5: double-cancelling a concrete cancelled order. -/
theorem c5_double_cancel_rejected_witness :
    cancelOrder dbCancelledOrder ⟨7⟩ = Except.error alreadyCancelledMsg
    ∧ applyOp dbCancelledOrder (Op.cancel ⟨7⟩) = dbCancelledOrder :=
  c5_double_cancel_rejected dbCancelledOrder ⟨7⟩
    { oid := ⟨7⟩, productId := ⟨1⟩, quantity := 3, total_price := 30,
      status := OrderStatus.cancelled }
    rfl rfl

/-- C6: submitting an order for q units of a product with stock s is
rejected with the insufficient-stock validation error, leaving the
database unchanged, exactly when q > s; when q ≤ s the stock check does
not fire and the creation goes through. -/
theorem c6_create_insufficient_stock (db : DB) (pid : Uuid) (p : Product) (q : Int)
    (hfind : findProduct db pid = some p) (h0 : 0 ≤ q) :
    (p.quantity < q →
      viewBulkCreate db [⟨pid, q⟩]
        = BulkResult.rejected400 db (insufficientStockMsg p.name))
    ∧ (q ≤ p.quantity →
      ∃ db2, viewBulkCreate db [⟨pid, q⟩] = BulkResult.created db2) := by
  constructor
  · intro hlt
    unfold viewBulkCreate
    rw [if_neg (by simp)]
    rw [resolveAll_single hfind h0]
    rw [if_pos hlt]
  · intro hle
    unfold viewBulkCreate
    rw [if_neg (by simp)]
    rw [resolveAll_single hfind h0]
    rw [if_neg (by omega)]
    dsimp only
    unfold createLoop
    rw [orderSaveInstance_create h0 hle]
    exact ⟨_, rfl⟩

/-- Witness for C6: with stock 5, requesting 7 is rejected with the
database unchanged, and requesting 4 is created. -/
theorem c6_create_insufficient_stock_witness :
    (viewBulkCreate dbFreshStock [⟨⟨1⟩, 7⟩]
      = BulkResult.rejected400 dbFreshStock (insufficientStockMsg "widget"))
    ∧ (∃ db2, viewBulkCreate dbFreshStock [⟨⟨1⟩, 4⟩] = BulkResult.created db2) :=
  ⟨(c6_create_insufficient_stock dbFreshStock ⟨1⟩ (widget 5) 7 rfl (by decide)).1
      (by decide),
   (c6_create_insufficient_stock dbFreshStock ⟨1⟩ (widget 5) 4 rfl (by decide)).2
      (by decide)⟩

/-- C7: a successful creation of a new order for q units of a product
with stock s (q ≤ s) leaves the product stock at exactly s - q. -/
theorem c7_create_deducts_stock (db : DB) (pid : Uuid) (p : Product) (q : Int)
    (hfind : findProduct db pid = some p) (h0 : 0 ≤ q) (hle : q ≤ p.quantity) :
    ∃ db2, viewBulkCreate db [⟨pid, q⟩] = BulkResult.created db2
      ∧ findProduct db2 pid = some { p with quantity := p.quantity - q } := by
  unfold viewBulkCreate
  rw [if_neg (by simp)]
  rw [resolveAll_single hfind h0]
  rw [if_neg (by omega)]
  dsimp only
  unfold createLoop
  rw [orderSaveInstance_create h0 hle]
  refine ⟨_, rfl, ?_⟩
  have hpid := findP_some_pid hfind
  unfold findProduct at hfind
  unfold findProduct upsertOrder updateProduct
  dsimp only
  rw [← hpid] at hfind ⊢
  exact findP_setProduct_self hfind

/-- Witness for C7: creating an order of 4 widgets from stock 5 leaves
stock 1. -/
theorem c7_create_deducts_stock_witness :
    ∃ db2, viewBulkCreate dbFreshStock [⟨⟨1⟩, 4⟩] = BulkResult.created db2
      ∧ findProduct db2 ⟨1⟩ = some { widget 5 with quantity := (widget 5).quantity - 4 } :=
  c7_create_deducts_stock dbFreshStock ⟨1⟩ (widget 5) 4 rfl (by decide) (by decide)

/-- C8: whenever Order.save persists an order (creation or update), the
persisted row has total_price = quantity × the product price read at that
save (models.py:177-183). -/
theorem c8_total_price (db : DB) (o : Order) (p : Product) (db2 : DB)
    (hp : findProduct db o.productId = some p)
    (hs : orderSave db o = Except.ok db2) :
    findOrder db2 o.oid = some { o with total_price := o.quantity * p.price } := by
  unfold orderSave at hs
  simp only [hp] at hs
  unfold orderSaveInstance at hs
  cases hsa : stockAfterSave p o.quantity (oldQuantityOf db o) with
  | error e =>
    simp only [hsa] at hs
    cases hs
  | ok s =>
    simp only [hsa, Except.ok.injEq] at hs
    subst hs
    unfold findOrder upsertOrder updateProduct
    dsimp only
    exact findO_upsert_self db.orders _

/-- Witness for C8: creating an order of 2 widgets at price 10 stores
total_price 20. -/
theorem c8_total_price_witness :
    findOrder
        { products := [widget 3]
          orders := [{ oid := ⟨9⟩, productId := ⟨1⟩, quantity := 2, total_price := 20,
                       status := OrderStatus.pending }] }
        ⟨9⟩
      = some { oid := ⟨9⟩, productId := ⟨1⟩, quantity := 2,
               total_price := (2 : Int) * (widget 5).price,
               status := OrderStatus.pending } :=
  c8_total_price dbFreshStock
    { oid := ⟨9⟩, productId := ⟨1⟩, quantity := 2, total_price := 0,
      status := OrderStatus.pending }
    (widget 5) _ rfl rfl

/-- C9: any update request for an order whose status is not pending is
answered with the 400 and its descriptive message before anything else
runs, and the database is unchanged (the 400 carries the original db). -/
theorem c9_nonpending_update_rejected (db : DB) (oid : Uuid) (o : Order) (req : UpdateReq)
    (hf : findOrder db oid = some o) (hst : o.status ≠ OrderStatus.pending) :
    viewUpdate db oid req = HttpResult.err400 db nonPendingMsg := by
  unfold viewUpdate
  simp only [hf]
  rw [if_pos hst]

/-- Witness for C9: updating a cancelled order is rejected. -/
theorem c9_nonpending_update_rejected_witness :
    viewUpdate dbCancelledOrder ⟨7⟩ { product_id := ReqPid.absent, quantity := some 1 }
      = HttpResult.err400 dbCancelledOrder nonPendingMsg :=
  c9_nonpending_update_rejected dbCancelledOrder ⟨7⟩
    { oid := ⟨7⟩, productId := ⟨1⟩, quantity := 3, total_price := 30,
      status := OrderStatus.cancelled }
    { product_id := ReqPid.absent, quantity := some 1 }
    rfl (by decide)

/-- Sanity anchor for the update endpoint: a PATCH-style update of a
pending order that supplies no product_id still dies in
OrderSerializer.validate, whose attrs hold no product, with the
required-product 400 — the endpoint never reaches Order.save, so the
database is returned unchanged. -/
theorem viewUpdate_absent_rejected :
    viewUpdate dbPendingOrder ⟨7⟩ { product_id := ReqPid.absent, quantity := some 2 }
      = HttpResult.err400 dbPendingOrder productRequiredMsg := by
  rfl

/-- When the request body supplies product_id, the update endpoint never
reaches the save: the outcome is a 404, a 400, or the uncaught ValueError,
each carrying the unchanged database. -/
theorem viewUpdate_pid_supplied {db : DB} {oid : Uuid} {req : UpdateReq}
    (hsup : req.product_id ≠ ReqPid.absent) :
    viewUpdate db oid req = HttpResult.err404 db
    ∨ (∃ m, viewUpdate db oid req = HttpResult.err400 db m)
    ∨ viewUpdate db oid req = HttpResult.raised db valueErrorMsg := by
  unfold viewUpdate
  cases hf : findOrder db oid with
  | none => exact Or.inl rfl
  | some order =>
    dsimp only
    split
    · exact Or.inr (Or.inl ⟨_, rfl⟩)
    · cases hg : productIdGuard req.product_id order.productId with
      | valueError => exact Or.inr (Or.inr rfl)
      | rejected => exact Or.inr (Or.inl ⟨_, rfl⟩)
      | passed =>
        dsimp only
        exact Or.inr (Or.inl ⟨_, rfl⟩)

/-- C10: the product reference of an order is immutable through the update
endpoint.  Whenever the body supplies a product_id: the request never
succeeds (and the database is returned unchanged); a truthy non-numeric
string — in particular any canonical UUID string — makes
`int(request_product_id)` raise an uncaught ValueError instead of the
documented 400; and a truthy numeric value reaches the comparison with the
product UUID, which is false for every int, giving the 400. -/
theorem c10_product_immutable (db : DB) (oid : Uuid) (req : UpdateReq)
    (hsup : req.product_id ≠ ReqPid.absent) :
    (∀ db2, viewUpdate db oid req ≠ HttpResult.ok200 db2)
    ∧ resultDb (viewUpdate db oid req) = db
    ∧ (∀ o s, findOrder db oid = some o → o.status = OrderStatus.pending →
        req.product_id = ReqPid.pstr s → s ≠ "" → pyIntParse s = none →
        viewUpdate db oid req = HttpResult.raised db valueErrorMsg)
    ∧ (∀ o n, findOrder db oid = some o → o.status = OrderStatus.pending →
        reqPidTruthy req.product_id = true →
        (req.product_id = ReqPid.pint n
          ∨ ∃ s, req.product_id = ReqPid.pstr s ∧ pyIntParse s = some n) →
        viewUpdate db oid req = HttpResult.err400 db productMismatchMsg) := by
  refine ⟨?_, ?_, ?_, ?_⟩
  · intro db2 hEq
    rcases viewUpdate_pid_supplied hsup with h | ⟨m, h⟩ | h
    · rw [h] at hEq
      cases hEq
    · rw [h] at hEq
      cases hEq
    · rw [h] at hEq
      cases hEq
  · rcases viewUpdate_pid_supplied hsup with h | ⟨m, h⟩ | h
    · rw [h]
      rfl
    · rw [h]
      rfl
    · rw [h]
      rfl
  · intro o s hf hst hps hsne hparse
    unfold viewUpdate
    simp only [hf]
    rw [if_neg (fun hne => hne hst)]
    have hg : productIdGuard req.product_id o.productId = GuardOutcome.valueError := by
      rw [hps]
      unfold productIdGuard reqPidTruthy
      rw [if_pos (by simp [hsne])]
      simp [hparse]
    rw [hg]
  · intro o n hf hst htr hcase
    unfold viewUpdate
    simp only [hf]
    rw [if_neg (fun hne => hne hst)]
    have hg : productIdGuard req.product_id o.productId = GuardOutcome.rejected := by
      unfold productIdGuard
      rw [if_pos htr]
      rcases hcase with hc | ⟨s, hc, hparse⟩
      · rw [hc]
        simp [intEqPyUuid]
      · rw [hc]
        simp [hparse, intEqPyUuid]
    rw [hg]

/-- Witness for C10: supplying a (non-numeric) product_id string. -/
theorem c10_product_immutable_witness :
    viewUpdate dbPendingOrder ⟨7⟩
        { product_id := ReqPid.pstr "abc-def", quantity := some 2 }
      ≠ HttpResult.ok200 dbPendingOrder :=
  (c10_product_immutable dbPendingOrder ⟨7⟩
      { product_id := ReqPid.pstr "abc-def", quantity := some 2 }
      (by decide)).1 dbPendingOrder

end OrdersApi
